import Mathlib

/-!
Verification of the model-loading core of AFIRGen (`model_loader.py`).

The Python module is embedded shallowly:

* Python dicts become association lists `List (String × α)` with
  insertion-order semantics (`dictInsert` overwrites in place or appends,
  `dictLookup` returns the first binding, `dictErase` models `dict.pop`).
* The filesystem and the checksum computation are an oracle `Env`: the code
  only observes a file through `exists / is_file / size / readable` and
  through the streamed digest, so that is what the oracle provides.
* The opaque loader capability (`loader_func`) is modelled by its observable
  behaviour on each invocation: attempt index ↦ raises / returns None /
  returns a handle.  Handles themselves are opaque; we fix a countable
  carrier `Handle := Nat`.
* Wall-clock durations (`load_time`) and logging are not modelled; the
  retry loop's `time.sleep` calls are recorded in a `LoadTrace` together
  with the number of loader invocations, so that retry/backoff behaviour is
  provable.
* The thread pool of `load_all_models` is modelled sequentially: every
  `_load_single_model` call writes only to its own model's keys
  (single-writer-per-key), so the keyed result and state maps coincide with
  the sequential execution; the worker-pool size actually handed to the
  executor is recorded in the outcome.
-/

namespace ModelLoaderSpec

/-- Opaque model handles (`Any` in Python); the carrier is irrelevant. -/
abbrev Handle := Nat

/-- Lookup of the first binding of a key in an association list
(`d.get(k)` / `d[k]`). -/
def dictLookup {α : Type} : List (String × α) → String → Option α
  | [], _ => none
  | p :: rest, k => if p.1 == k then some p.2 else dictLookup rest k

/-- `d[k] = v`: overwrite the binding in place if the key is present,
append it otherwise (Python dicts keep insertion order). -/
def dictInsert {α : Type} (l : List (String × α)) (k : String) (v : α) :
    List (String × α) :=
  if l.any (fun p => p.1 == k) then
    l.map (fun p => if p.1 == k then (k, v) else p)
  else
    l ++ [(k, v)]

/-- `d.pop(k, None)`: remove the binding of `k`. -/
def dictErase {α : Type} (l : List (String × α)) (k : String) :
    List (String × α) :=
  l.filter (fun p => !(p.1 == k))

/-- `ModelStatus` enum of `model_loader.py`. -/
inductive ModelStatus where
  | not_loaded
  | loading
  | loaded
  | failed
deriving DecidableEq, Repr

/-- The `.value` string of each `ModelStatus` member. -/
def ModelStatus.value : ModelStatus → String
  | .not_loaded => "not_loaded"
  | .loading => "loading"
  | .loaded => "loaded"
  | .failed => "failed"

/-- Observable behaviour of one invocation of a loader capability:
it raises, or it returns (possibly `None`). -/
inductive LoaderOutcome where
  | raises (msg : String)
  | returns (h : Option Handle)

/-- `ModelConfig` dataclass.  `loader_func` is the loader capability,
modelled by its outcome at each attempt index; `loader_kwargs` are opaque
arguments forwarded to it and are absorbed into that behaviour.
`retry_count : int = 1`. -/
structure ModelConfig where
  name : String
  path : String
  loader_func : Nat → LoaderOutcome
  required : Bool := true
  expected_checksum : Option String := none
  checksum_algorithm : String := "sha256"
  retry_count : Nat := 1

/-- What `_validate_file_exists` observes about a path. -/
structure FileStat where
  exists_ : Bool
  is_file : Bool
  size : Nat
  readable : Bool
deriving DecidableEq, Repr

/-- Python `str.lower()` as used on checksum hex digests: an executable
character-wise lowercase map. -/
def strLower (s : String) : String := String.mk (s.data.map Char.toLower)

/-- Result of streaming a file through `_calculate_checksum`:
the hex digest, or the message of the exception it raised. -/
inductive ChecksumResult where
  | ok (digest : String)
  | err (msg : String)
deriving DecidableEq, Repr

/-- The environment a loader runs against: file metadata per path, and the
digest computed for a path under a given algorithm. -/
structure Env where
  fstat : String → FileStat
  checksum : String → String → ChecksumResult

/-- `ModelLoadResult` dataclass (load_time omitted: wall-clock time is not
modelled). -/
structure ModelLoadResult where
  success : Bool
  model : Option Handle := none
  error_message : Option String := none
  checksum : Option String := none
deriving DecidableEq, Repr

/-- Instrumentation of one `_load_single_model` call: how often the loader
capability was invoked and which backoff sleeps (in seconds) happened. -/
structure LoadTrace where
  loader_calls : Nat := 0
  sleeps : List ℚ := []
deriving DecidableEq, Repr

/-- The mutable state of a `ModelLoader` instance. -/
structure LoaderState where
  validate_checksums : Bool := true
  models : List (String × Option Handle) := []
  model_configs : List (String × ModelConfig) := []
  model_status : List (String × ModelStatus) := []
  model_errors : List (String × String) := []
  model_checksums : List (String × String) := []

/-- `ModelLoader.register_model`. -/
def register_model (st : LoaderState) (config : ModelConfig) : LoaderState :=
  { st with
    model_configs := dictInsert st.model_configs config.name config
    model_status := dictInsert st.model_status config.name ModelStatus.not_loaded }

/-- `ModelLoader._validate_file_exists`. -/
def validate_file_exists (env : Env) (path : String) : Bool × String :=
  let s := env.fstat path
  if !s.exists_ then
    (false, "Model file not found: " ++ path)
  else if !s.is_file then
    (false, "Path is not a file: " ++ path)
  else if s.size == 0 then
    (false, "Model file is empty (0 bytes): " ++ path)
  else if !s.readable then
    (false, "Model file is not readable (permission denied): " ++ path)
  else
    (true, "File validation passed")

/-- `ModelLoader._validate_checksum`: case-insensitive comparison of the
streamed digest against the expected one; any exception from the
computation is caught and reported. -/
def validate_checksum (env : Env) (path expected algorithm : String) :
    Bool × String × String :=
  match env.checksum path algorithm with
  | .ok actual =>
    if !(strLower actual == strLower expected) then
      (false, actual,
        "Checksum mismatch! Expected: " ++ expected ++ ", Got: " ++ actual ++
        ". File may be corrupted or tampered with.")
    else
      (true, actual, "Checksum validation passed")
  | .err e => (false, "", "Checksum validation failed: " ++ e)

/-- Python truthiness of `config.expected_checksum` (None and "" are falsy). -/
def optStrTruthy : Option String → Bool
  | some s => !(s == "")
  | none => false

/-- `ModelLoader._validate_model_file`: existence check, then checksum check
when the global flag and a truthy per-model expectation are both set; on a
checksum pass the actual digest is stored in `model_checksums`. -/
def validate_model_file (env : Env) (st : LoaderState) (config : ModelConfig) :
    LoaderState × Bool × String :=
  let r := validate_file_exists env config.path
  if !r.1 then
    (st, false, r.2)
  else if st.validate_checksums && optStrTruthy config.expected_checksum then
    let expected := config.expected_checksum.getD ""
    let c := validate_checksum env config.path expected config.checksum_algorithm
    if !c.1 then
      (st, false, c.2.2)
    else
      ({ st with
          model_checksums := dictInsert st.model_checksums config.name c.2.1 },
        true, "Validation passed")
  else
    (st, true, "Validation passed")

/-- Error produced by one loader invocation: the raised message, or the
`RuntimeError("Loader returned None")` raised when the loader returns
`None`; `none` when a usable handle came back. -/
def loaderErr : LoaderOutcome → Option String
  | .raises m => some m
  | .returns none => some "Loader returned None"
  | .returns (some _) => none

/-- The usable handle of one loader invocation, when there is one. -/
def loaderHandle : LoaderOutcome → Option Handle
  | .returns (some h) => some h
  | _ => none

/-- `0.5 * (2 ** attempt)` seconds of exponential backoff. -/
def waitTime (attempt : Nat) : ℚ := (1 / 2 : ℚ) * 2 ^ attempt

/-- The retry loop of `_load_single_model`
(`for attempt in range(config.retry_count)`), run over the list of remaining
attempt indices.  An exhausted list reaches the function's trailing
"should not reach here" return. -/
def loadLoop (config : ModelConfig) (st : LoaderState) (tr : LoadTrace) :
    List Nat → LoaderState × ModelLoadResult × LoadTrace
  | [] =>
    (st, { success := false, error_message := some "Unknown error during loading" }, tr)
  | attempt :: rest =>
    let tr1 : LoadTrace := { tr with loader_calls := tr.loader_calls + 1 }
    match loaderHandle (config.loader_func attempt) with
    | some model =>
      ({ st with
          models := dictInsert st.models config.name (some model)
          model_status := dictInsert st.model_status config.name ModelStatus.loaded
          model_errors := dictErase st.model_errors config.name },
        { success := true, model := some model,
          checksum := dictLookup st.model_checksums config.name },
        tr1)
    | none =>
      let e := (loaderErr (config.loader_func attempt)).getD ""
      if attempt == config.retry_count - 1 then
        ({ st with
            model_status := dictInsert st.model_status config.name ModelStatus.failed
            model_errors := dictInsert st.model_errors config.name e },
          { success := false, error_message := some e },
          tr1)
      else
        loadLoop config st { tr1 with sleeps := tr1.sleeps ++ [waitTime attempt] } rest

/-- `ModelLoader._load_single_model`: set LOADING, validate once (validation
failures are terminal: FAILED, error recorded, no loader invocation), then
run the retry loop. -/
def load_single_model (env : Env) (st : LoaderState) (config : ModelConfig) :
    LoaderState × ModelLoadResult × LoadTrace :=
  let st0 := { st with
    model_status := dictInsert st.model_status config.name ModelStatus.loading }
  let v := validate_model_file env st0 config
  if !v.2.1 then
    ({ v.1 with
        model_status := dictInsert v.1.model_status config.name ModelStatus.failed
        model_errors := dictInsert v.1.model_errors config.name v.2.2 },
      { success := false, error_message := some v.2.2 },
      { loader_calls := 0, sleeps := [] })
  else
    loadLoop config v.1 { loader_calls := 0, sleeps := [] }
      (List.range config.retry_count)

/-- The sequential core of `load_all_models`: run `_load_single_model` for
every registered config in order, keying results by `config.name`.
The parallel thread-pool path performs exactly these per-name writes from
distinct workers (single writer per key), so its keyed outcome coincides. -/
def runAll (env : Env) (st : LoaderState)
    (results : List (String × ModelLoadResult)) :
    List ModelConfig → LoaderState × List (String × ModelLoadResult)
  | [] => (st, results)
  | config :: rest =>
    let out := load_single_model env st config
    runAll env out.1 (dictInsert results config.name out.2.1) rest

/-- The `missing_required` list of `_validate_required_models`: names of the
registered required models whose result is absent or unsuccessful
(`results.get(name, ModelLoadResult(False)).success`). -/
def missing_required_of (st : LoaderState)
    (results : List (String × ModelLoadResult)) : List String :=
  (st.model_configs.filter (fun p =>
    p.2.required &&
      !((dictLookup results p.1).getD { success := false }).success)).map
    (fun p => p.1)

/-- `ModelLoader._validate_required_models`: the message of the
`RuntimeError` it raises, or `none` when it returns normally. -/
def validate_required_models (st : LoaderState)
    (results : List (String × ModelLoadResult)) : Option String :=
  let missing_required := missing_required_of st results
  if !missing_required.isEmpty then
    some ("Critical models failed to load: " ++
      String.intercalate ", " missing_required ++
      ". Service cannot start without these models.")
  else if !(results.any (fun p => p.2.success)) then
    some "No models loaded successfully! Service cannot start."
  else
    none

/-- Observable outcome of one `load_all_models` call. -/
structure LoadAllOutcome where
  state : LoaderState
  results : List (String × ModelLoadResult)
  /-- `max_workers` handed to `ThreadPoolExecutor`; `none` when the
  sequential path was taken (`not parallel` or at most one model). -/
  pool_size : Option Nat
  /-- Message of the `RuntimeError` raised by the final required-model
  check; `none` when the call returns its result map normally. -/
  raised : Option String

/-- `ModelLoader.load_all_models`.  Directory creation and logging are not
modelled (no claim observes them); the loading itself is the keyed
per-model work of `runAll`. -/
def load_all_models (env : Env) (st : LoaderState) (parallel : Bool)
    (max_workers : Option Nat) : LoadAllOutcome :=
  let pool : Option Nat :=
    if parallel && decide (1 < st.model_configs.length) then
      some (match max_workers with
            | none => min st.model_configs.length 3
            | some w => w)
    else
      none
  let run := runAll env st [] (st.model_configs.map (fun p => p.2))
  { state := run.1
    results := run.2
    pool_size := pool
    raised := validate_required_models run.1 run.2 }

/-- `ModelLoader.get_model` result: the `ValueError` for unknown names, the
`RuntimeError` for registered-but-unavailable models, or the handle. -/
inductive GetModelResult where
  | valueError (msg : String)
  | runtimeError (msg : String)
  | ok (h : Handle)
deriving DecidableEq, Repr

/-- `ModelLoader.get_model`. -/
def get_model (st : LoaderState) (model_name : String) : GetModelResult :=
  if !(dictLookup st.model_configs model_name).isSome then
    let available := String.intercalate ", " (st.model_configs.map (fun p => p.1))
    .valueError ("Unknown model: '" ++ model_name ++
      "'. Available models: " ++ available)
  else
    match (dictLookup st.models model_name).bind id with
    | none =>
      let status := (dictLookup st.model_status model_name).getD ModelStatus.not_loaded
      let error_detail := (dictLookup st.model_errors model_name).getD "Unknown error"
      .runtimeError ("Model '" ++ model_name ++ "' is not available (status: " ++
        status.value ++ "). Loading failed with: " ++ error_detail)
    | some model => .ok model

/-- `ModelLoader.is_model_loaded`. -/
def is_model_loaded (st : LoaderState) (model_name : String) : Bool :=
  match dictLookup st.models model_name with
  | some (some _) => dictLookup st.model_status model_name == some ModelStatus.loaded
  | _ => false

/-- The dictionary returned by `get_health_status`. -/
structure HealthStatus where
  status : String
  message : String
  models_loaded : List (String × Bool)
  loaded_count : Nat
  total_count : Nat
  errors : List (String × String)

/-- `ModelLoader.get_health_status`. -/
def get_health_status (st : LoaderState) : HealthStatus :=
  let models_status :=
    st.model_configs.map (fun p => (p.1, is_model_loaded st p.1))
  let loaded_count := (models_status.filter (fun p => p.2)).length
  let total_count := models_status.length
  let required_models :=
    (st.model_configs.filter (fun p => p.2.required)).map (fun p => p.1)
  let missing_required :=
    required_models.filter (fun name => !((dictLookup models_status name).getD false))
  let verdict :=
    if loaded_count == total_count then
      ("healthy", "All models loaded successfully")
    else if !missing_required.isEmpty then
      ("unhealthy", "Critical models not loaded: " ++
        String.intercalate ", " missing_required)
    else if 0 < loaded_count then
      ("degraded", toString loaded_count ++ "/" ++ toString total_count ++
        " models loaded (optional models missing)")
    else
      ("unhealthy", "No models loaded")
  let message :=
    if !st.model_errors.isEmpty then
      verdict.2 ++ ". Errors: " ++
        String.intercalate "; " (st.model_errors.map (fun p => p.1 ++ ": " ++ p.2))
    else
      verdict.2
  { status := verdict.1
    message := message
    models_loaded := models_status
    loaded_count := loaded_count
    total_count := total_count
    errors := st.model_errors }

/-- `ModelLoader.get_model_info`: `none` models the `ValueError` for an
unknown name. -/
def get_model_info (st : LoaderState) (model_name : String) :
    Option (String × String × Bool × String × Bool × Option String × Option String) :=
  match dictLookup st.model_configs model_name with
  | none => none
  | some config =>
    some (config.name, config.path, config.required,
      ((dictLookup st.model_status model_name).getD ModelStatus.not_loaded).value,
      is_model_loaded st model_name,
      dictLookup st.model_errors model_name,
      dictLookup st.model_checksums model_name)

/-! ### Concrete fixtures used to instantiate the theorems -/

/-- A present, non-empty, readable regular file. -/
def goodStat : FileStat :=
  { exists_ := true, is_file := true, size := 5, readable := true }

/-- Every path is a good file; every digest computes to "ABC". -/
def envGood : Env :=
  { fstat := fun _ => goodStat, checksum := fun _ _ => .ok "ABC" }

/-- No path exists. -/
def envMissing : Env :=
  { fstat := fun _ => { goodStat with exists_ := false },
    checksum := fun _ _ => .ok "ABC" }

/-- A required model whose loader succeeds on every attempt. -/
def cfgA : ModelConfig :=
  { name := "A", path := "pA", loader_func := fun _ => .returns (some 7) }

/-- An optional model whose loader would succeed. -/
def cfgOpt : ModelConfig :=
  { name := "O", path := "pO", loader_func := fun _ => .returns (some 8),
    required := false }

/-- An optional model registered with `retry_count = 0`. -/
def cfgB0 : ModelConfig :=
  { name := "B", path := "pB", loader_func := fun _ => .returns (some 9),
    required := false, retry_count := 0 }

/-- A required model whose loader raises on every attempt, three retries. -/
def cfgFail : ModelConfig :=
  { name := "F", path := "pF", loader_func := fun _ => .raises "boom",
    retry_count := 3 }

/-- A required model with an expected checksum that will not match "ABC". -/
def cfgChk : ModelConfig :=
  { name := "C", path := "pC", loader_func := fun _ => .returns (some 10),
    expected_checksum := some "def" }

/-- Registry holding only `cfgA`. -/
def stA : LoaderState := register_model {} cfgA

/-- Registry holding only the optional `cfgOpt`. -/
def stOpt : LoaderState := register_model {} cfgOpt

/-- Registry holding `cfgA` and the zero-retry optional `cfgB0`. -/
def st2 : LoaderState := register_model (register_model {} cfgA) cfgB0

/-- Registry holding only the checksum-guarded `cfgChk`. -/
def stChk : LoaderState := register_model {} cfgChk

/-! ### Association-list lemmas -/

lemma dictLookup_append {α : Type} (l1 l2 : List (String × α)) (k : String) :
    dictLookup (l1 ++ l2) k =
      match dictLookup l1 k with
      | some v => some v
      | none => dictLookup l2 k := by
  induction l1 with
  | nil => rfl
  | cons p t ih =>
    simp only [List.cons_append, List.append_eq, dictLookup]
    by_cases hp : p.1 == k
    · rw [if_pos hp, if_pos hp]
    · rw [if_neg hp, if_neg hp]
      simpa using ih

lemma dictLookup_eq_none_of_any_false {α : Type} {l : List (String × α)}
    {k : String} (h : l.any (fun p => p.1 == k) = false) :
    dictLookup l k = none := by
  induction l with
  | nil => rfl
  | cons p t ih =>
    simp only [List.any_cons, Bool.or_eq_false_iff] at h
    simp only [dictLookup]
    rw [if_neg (by simp [h.1]), ih h.2]

lemma lookup_mapReplace_self {α : Type} {l : List (String × α)} {k : String}
    (v : α) (hany : l.any (fun p => p.1 == k) = true) :
    dictLookup (l.map (fun p => if p.1 == k then (k, v) else p)) k = some v := by
  induction l with
  | nil => simp at hany
  | cons p t ih =>
    simp only [List.map_cons]
    by_cases hp : p.1 == k
    · rw [if_pos hp]
      simp only [dictLookup]
      rw [if_pos (by simp)]
    · rw [if_neg hp]
      have hany' : t.any (fun q => q.1 == k) = true := by
        simp only [List.any_cons, hp, Bool.false_or] at hany
        exact hany
      simp only [dictLookup]
      rw [if_neg hp]
      exact ih hany'

lemma lookup_mapReplace_ne {α : Type} {l : List (String × α)} {k k' : String}
    (v : α) (h : ¬((k == k') = true)) :
    dictLookup (l.map (fun p => if p.1 == k then (k, v) else p)) k' =
      dictLookup l k' := by
  induction l with
  | nil => rfl
  | cons p t ih =>
    simp only [List.map_cons]
    by_cases hp : p.1 == k
    · rw [if_pos hp]
      have hpk : p.1 = k := by simpa using hp
      simp only [dictLookup]
      rw [if_neg h, if_neg (by rw [hpk]; exact h), ih]
    · rw [if_neg hp]
      simp only [dictLookup]
      by_cases hp' : p.1 == k'
      · rw [if_pos hp', if_pos hp']
      · rw [if_neg hp', if_neg hp', ih]

lemma dictLookup_insert_self {α : Type} (l : List (String × α)) (k : String)
    (v : α) : dictLookup (dictInsert l k v) k = some v := by
  unfold dictInsert
  split
  case isTrue hany => exact lookup_mapReplace_self v hany
  case isFalse hany =>
    rw [dictLookup_append,
      dictLookup_eq_none_of_any_false (Bool.eq_false_iff.mpr hany)]
    simp only [dictLookup]
    rw [if_pos (by simp)]

lemma dictLookup_insert_ne {α : Type} (l : List (String × α)) {k k' : String}
    (v : α) (h : k' ≠ k) : dictLookup (dictInsert l k v) k' = dictLookup l k' := by
  have hkk : ¬((k == k') = true) := by
    simp only [beq_iff_eq]
    exact fun e => h e.symm
  unfold dictInsert
  split
  case isTrue hany => exact lookup_mapReplace_ne v hkk
  case isFalse hany =>
    rw [dictLookup_append]
    cases hl : dictLookup l k' with
    | some v0 => rfl
    | none =>
      simp only [dictLookup]
      rw [if_neg hkk]

lemma dictLookup_erase_self {α : Type} (l : List (String × α)) (k : String) :
    dictLookup (dictErase l k) k = none := by
  induction l with
  | nil => rfl
  | cons p t ih =>
    simp only [dictErase, List.filter_cons] at ih ⊢
    by_cases hp : p.1 == k
    · rw [if_neg (by simp [hp])]
      exact ih
    · rw [if_pos (by simp [hp])]
      simp only [dictLookup]
      rw [if_neg hp]
      exact ih

lemma dictLookup_erase_ne {α : Type} (l : List (String × α)) {k k' : String}
    (h : k' ≠ k) : dictLookup (dictErase l k) k' = dictLookup l k' := by
  induction l with
  | nil => rfl
  | cons p t ih =>
    simp only [dictErase, List.filter_cons] at ih ⊢
    by_cases hp : p.1 == k
    · have hpk : p.1 = k := by simpa using hp
      rw [if_neg (by simp [hp])]
      simp only [dictLookup]
      rw [if_neg (by simp only [beq_iff_eq, hpk]; exact fun e => h e.symm)]
      exact ih
    · rw [if_pos (by simp [hp])]
      simp only [dictLookup]
      by_cases hp' : p.1 == k'
      · rw [if_pos hp', if_pos hp']
      · rw [if_neg hp', if_neg hp']
        exact ih

lemma dictLookup_isSome_of_mem {α : Type} {l : List (String × α)}
    {p : String × α} (hp : p ∈ l) : (dictLookup l p.1).isSome := by
  induction l with
  | nil => cases hp
  | cons q t ih =>
    simp only [dictLookup]
    by_cases hq : q.1 == p.1
    · rw [if_pos hq]
      rfl
    · rcases List.mem_cons.mp hp with rfl | hmem
      · simp at hq
      · rw [if_neg hq]
        exact ih hmem

lemma dictLookup_map_key {α β : Type} (f : String → β) (l : List (String × α))
    (k : String) :
    dictLookup (l.map (fun p => (p.1, f p.1))) k =
      (dictLookup l k).map (fun _ => f k) := by
  induction l with
  | nil => rfl
  | cons p t ih =>
    simp only [List.map_cons, dictLookup]
    by_cases hp : p.1 == k
    · have hpk : p.1 = k := by simpa using hp
      rw [if_pos hp, if_pos hp, hpk]
      rfl
    · rw [if_neg hp, if_neg hp, ih]

lemma length_filter_lt_of_mem_false {α : Type} {l : List α} {p : α → Bool}
    {x : α} (hx : x ∈ l) (hpx : p x = false) :
    (l.filter p).length < l.length := by
  induction l with
  | nil => cases hx
  | cons a t ih =>
    rcases List.mem_cons.mp hx with rfl | hmem
    · simp only [List.filter_cons, hpx, List.length_cons]
      exact Nat.lt_succ_of_le (List.length_filter_le p t)
    · by_cases ha : p a
      · simp only [List.filter_cons, ha, List.length_cons]
        rw [if_pos trivial]
        exact Nat.succ_lt_succ (ih hmem)
      · simp only [List.filter_cons, List.length_cons]
        rw [if_neg (by simp [ha])]
        exact Nat.lt_succ_of_lt (ih hmem)

/-! ### Lemmas about `validate_model_file` -/

lemma vmf_snd_congr (env : Env) (st st' : LoaderState) (config : ModelConfig)
    (h : st.validate_checksums = st'.validate_checksums) :
    (validate_model_file env st config).2 = (validate_model_file env st' config).2 := by
  simp only [validate_model_file, h]
  split
  · rfl
  · split
    · split <;> rfl
    · rfl

lemma vmf_model_status (env : Env) (st : LoaderState) (config : ModelConfig) :
    (validate_model_file env st config).1.model_status = st.model_status := by
  simp only [validate_model_file]
  split
  · rfl
  · split
    · split <;> rfl
    · rfl

lemma vmf_model_errors (env : Env) (st : LoaderState) (config : ModelConfig) :
    (validate_model_file env st config).1.model_errors = st.model_errors := by
  simp only [validate_model_file]
  split
  · rfl
  · split
    · split <;> rfl
    · rfl

lemma vmf_models (env : Env) (st : LoaderState) (config : ModelConfig) :
    (validate_model_file env st config).1.models = st.models := by
  simp only [validate_model_file]
  split
  · rfl
  · split
    · split <;> rfl
    · rfl

lemma vmf_model_configs (env : Env) (st : LoaderState) (config : ModelConfig) :
    (validate_model_file env st config).1.model_configs = st.model_configs := by
  simp only [validate_model_file]
  split
  · rfl
  · split
    · split <;> rfl
    · rfl

lemma vmf_validate_checksums (env : Env) (st : LoaderState) (config : ModelConfig) :
    (validate_model_file env st config).1.validate_checksums = st.validate_checksums := by
  simp only [validate_model_file]
  split
  · rfl
  · split
    · split <;> rfl
    · rfl

lemma vmf_env_congr (fs : String → FileStat) (ck1 ck2 : String → String → ChecksumResult)
    (st : LoaderState) (config : ModelConfig)
    (h : (st.validate_checksums && optStrTruthy config.expected_checksum) = false) :
    validate_model_file { fstat := fs, checksum := ck1 } st config =
      validate_model_file { fstat := fs, checksum := ck2 } st config := by
  have hfe : validate_file_exists { fstat := fs, checksum := ck1 } config.path =
      validate_file_exists { fstat := fs, checksum := ck2 } config.path := rfl
  simp only [validate_model_file, h, Bool.false_eq_true, if_false, hfe]

/-! ### Lemmas about the retry loop -/

lemma loaderHandle_eq_none {o : LoaderOutcome} (h : (loaderErr o).isSome) :
    loaderHandle o = none := by
  cases o with
  | raises m => rfl
  | returns ho => cases ho with
    | none => rfl
    | some hh => simp [loaderErr] at h

lemma loadLoop_success_errors (config : ModelConfig) :
    ∀ (l : List Nat) (st : LoaderState) (tr : LoadTrace),
    (loadLoop config st tr l).2.1.success = true →
    dictLookup (loadLoop config st tr l).1.model_errors config.name = none := by
  intro l
  induction l with
  | nil =>
    intro st tr h
    simp [loadLoop] at h
  | cons a rest ih =>
    intro st tr h
    cases hout : config.loader_func a with
    | raises m =>
      by_cases hc : (a == config.retry_count - 1) = true
      · simp only [loadLoop, hout, loaderHandle, hc, if_true] at h
        simp at h
      · simp only [loadLoop, hout, loaderHandle, hc, if_false] at h ⊢
        exact ih _ _ h
    | returns ho =>
      cases ho with
      | none =>
        by_cases hc : (a == config.retry_count - 1) = true
        · simp only [loadLoop, hout, loaderHandle, hc, if_true] at h
          simp at h
        · simp only [loadLoop, hout, loaderHandle, hc, if_false] at h ⊢
          exact ih _ _ h
      | some hh =>
        simp only [loadLoop, hout, loaderHandle]
        exact dictLookup_erase_self _ _

lemma loadLoop_frame (config : ModelConfig) (k : String) (hk : k ≠ config.name) :
    ∀ (l : List Nat) (st : LoaderState) (tr : LoadTrace),
    dictLookup (loadLoop config st tr l).1.model_status k = dictLookup st.model_status k ∧
    dictLookup (loadLoop config st tr l).1.model_errors k = dictLookup st.model_errors k ∧
    dictLookup (loadLoop config st tr l).1.models k = dictLookup st.models k := by
  intro l
  induction l with
  | nil =>
    intro st tr
    exact ⟨rfl, rfl, rfl⟩
  | cons a rest ih =>
    intro st tr
    cases hout : config.loader_func a with
    | raises m =>
      by_cases hc : (a == config.retry_count - 1) = true
      · simp only [loadLoop, hout, loaderHandle, hc, if_true]
        exact ⟨dictLookup_insert_ne _ _ hk, dictLookup_insert_ne _ _ hk, trivial⟩
      · simp only [loadLoop, hout, loaderHandle, hc, if_false]
        exact ih _ _
    | returns ho =>
      cases ho with
      | none =>
        by_cases hc : (a == config.retry_count - 1) = true
        · simp only [loadLoop, hout, loaderHandle, hc, if_true]
          exact ⟨dictLookup_insert_ne _ _ hk, dictLookup_insert_ne _ _ hk, trivial⟩
        · simp only [loadLoop, hout, loaderHandle, hc, if_false]
          exact ih _ _
      | some hh =>
        simp only [loadLoop, hout, loaderHandle]
        exact ⟨dictLookup_insert_ne _ _ hk, dictLookup_erase_ne _ hk,
          dictLookup_insert_ne _ _ hk⟩

lemma loadLoop_fields (config : ModelConfig) :
    ∀ (l : List Nat) (st : LoaderState) (tr : LoadTrace),
    (loadLoop config st tr l).1.model_configs = st.model_configs ∧
    (loadLoop config st tr l).1.validate_checksums = st.validate_checksums ∧
    (loadLoop config st tr l).1.model_checksums = st.model_checksums := by
  intro l
  induction l with
  | nil =>
    intro st tr
    exact ⟨rfl, rfl, rfl⟩
  | cons a rest ih =>
    intro st tr
    cases hout : config.loader_func a with
    | raises m =>
      by_cases hc : (a == config.retry_count - 1) = true
      · simp only [loadLoop, hout, loaderHandle, hc, if_true]
        exact ⟨trivial, trivial, trivial⟩
      · simp only [loadLoop, hout, loaderHandle, hc, if_false]
        exact ih _ _
    | returns ho =>
      cases ho with
      | none =>
        by_cases hc : (a == config.retry_count - 1) = true
        · simp only [loadLoop, hout, loaderHandle, hc, if_true]
          exact ⟨trivial, trivial, trivial⟩
        · simp only [loadLoop, hout, loaderHandle, hc, if_false]
          exact ih _ _
      | some hh =>
        simp only [loadLoop, hout, loaderHandle]
        exact ⟨trivial, trivial, trivial⟩

lemma loadLoop_range'_status (config : ModelConfig) :
    ∀ (n a : Nat) (st : LoaderState) (tr : LoadTrace), 1 ≤ n →
    a + n = config.retry_count →
    dictLookup (loadLoop config st tr (List.range' a n)).1.model_status config.name =
        some ModelStatus.loaded ∨
      dictLookup (loadLoop config st tr (List.range' a n)).1.model_status config.name =
        some ModelStatus.failed := by
  intro n
  induction n with
  | zero =>
    intro a st tr h1 h2
    omega
  | succ m ih =>
    intro a st tr h1 h2
    rw [List.range'_succ]
    cases hout : config.loader_func a with
    | raises msg =>
      by_cases hm : m = 0
      · subst hm
        have hc : (a == config.retry_count - 1) = true := by
          simp only [beq_iff_eq]
          omega
        simp only [loadLoop, hout, loaderHandle, hc, if_true, List.range'_zero]
        exact Or.inr (dictLookup_insert_self _ _ _)
      · have hc : ¬((a == config.retry_count - 1) = true) := by
          simp only [beq_iff_eq]
          omega
        simp only [loadLoop, hout, loaderHandle, hc, if_false]
        exact ih (a + 1) _ _ (by omega) (by omega)
    | returns ho =>
      cases ho with
      | none =>
        by_cases hm : m = 0
        · subst hm
          have hc : (a == config.retry_count - 1) = true := by
            simp only [beq_iff_eq]
            omega
          simp only [loadLoop, hout, loaderHandle, hc, if_true, List.range'_zero]
          exact Or.inr (dictLookup_insert_self _ _ _)
        · have hc : ¬((a == config.retry_count - 1) = true) := by
            simp only [beq_iff_eq]
            omega
          simp only [loadLoop, hout, loaderHandle, hc, if_false]
          exact ih (a + 1) _ _ (by omega) (by omega)
      | some hh =>
        simp only [loadLoop, hout, loaderHandle]
        exact Or.inl (dictLookup_insert_self _ _ _)

lemma loadLoop_all_fail (config : ModelConfig)
    (hfail : ∀ i, i < config.retry_count → (loaderErr (config.loader_func i)).isSome) :
    ∀ (n a : Nat) (st : LoaderState) (tr : LoadTrace), 1 ≤ n →
    a + n = config.retry_count →
    loadLoop config st tr (List.range' a n) =
      ({ st with
          model_status := dictInsert st.model_status config.name ModelStatus.failed
          model_errors := dictInsert st.model_errors config.name
            ((loaderErr (config.loader_func (config.retry_count - 1))).getD "") },
        { success := false,
          error_message :=
            some ((loaderErr (config.loader_func (config.retry_count - 1))).getD "") },
        { loader_calls := tr.loader_calls + n,
          sleeps := tr.sleeps ++ (List.range' a (n - 1)).map waitTime }) := by
  intro n
  induction n with
  | zero =>
    intro a st tr h1 h2
    omega
  | succ m ih =>
    intro a st tr h1 h2
    have hnone : loaderHandle (config.loader_func a) = none :=
      loaderHandle_eq_none (hfail a (by omega))
    rw [List.range'_succ]
    cases hm : m with
    | zero =>
      obtain rfl : a = config.retry_count - 1 := by omega
      have hc : ((config.retry_count - 1 == config.retry_count - 1)) = true := by
        simp
      simp [loadLoop, hnone, hc]
    | succ m0 =>
      subst hm
      have hc : (a == config.retry_count - 1) = false := by
        simp only [beq_eq_false_iff_ne, ne_eq]
        omega
      have hstep :
          loadLoop config st tr (a :: List.range' (a + 1) (m0 + 1)) =
            loadLoop config st
              { loader_calls := tr.loader_calls + 1,
                sleeps := tr.sleeps ++ [waitTime a] }
              (List.range' (a + 1) (m0 + 1)) := by
        simp [loadLoop, hnone, hc]
      rw [hstep, ih (a + 1) st _ (by omega) (by omega)]
      have hcalls : tr.loader_calls + 1 + (m0 + 1) = tr.loader_calls + (m0 + 1 + 1) := by
        omega
      have hsleeps :
          (tr.sleeps ++ [waitTime a]) ++
              List.map waitTime (List.range' (a + 1) (m0 + 1 - 1)) =
            tr.sleeps ++ List.map waitTime (List.range' a (m0 + 1 + 1 - 1)) := by
        rw [List.append_assoc]
        rw [show m0 + 1 + 1 - 1 = m0 + 1 from by omega,
          show m0 + 1 - 1 = m0 from by omega, List.range'_succ, List.map_cons]
        rfl
      rw [hcalls, hsleeps]

/-! ### Lemmas about `load_single_model` -/

lemma load_single_fields (env : Env) (st : LoaderState) (config : ModelConfig) :
    (load_single_model env st config).1.model_configs = st.model_configs ∧
    (load_single_model env st config).1.validate_checksums = st.validate_checksums := by
  simp only [load_single_model]
  split
  · exact ⟨vmf_model_configs _ _ _, vmf_validate_checksums _ _ _⟩
  · have h := loadLoop_fields config (List.range config.retry_count)
      (validate_model_file env
        { st with model_status :=
            dictInsert st.model_status config.name ModelStatus.loading } config).1
      { loader_calls := 0, sleeps := [] }
    exact ⟨h.1.trans (vmf_model_configs _ _ _),
      h.2.1.trans (vmf_validate_checksums _ _ _)⟩

lemma load_single_frame (env : Env) (st : LoaderState) (config : ModelConfig)
    (k : String) (hk : k ≠ config.name) :
    dictLookup (load_single_model env st config).1.model_status k =
        dictLookup st.model_status k ∧
    dictLookup (load_single_model env st config).1.model_errors k =
        dictLookup st.model_errors k ∧
    dictLookup (load_single_model env st config).1.models k =
        dictLookup st.models k := by
  simp only [load_single_model]
  split
  · refine ⟨?_, ?_, ?_⟩
    · rw [dictLookup_insert_ne _ _ hk, vmf_model_status]
      exact dictLookup_insert_ne _ _ hk
    · rw [dictLookup_insert_ne _ _ hk, vmf_model_errors]
    · rw [vmf_models]
  · obtain ⟨hs, he, hm⟩ := loadLoop_frame config k hk (List.range config.retry_count)
      (validate_model_file env
        { st with model_status :=
            dictInsert st.model_status config.name ModelStatus.loading } config).1
      { loader_calls := 0, sleeps := [] }
    refine ⟨?_, ?_, ?_⟩
    · rw [hs, vmf_model_status]
      exact dictLookup_insert_ne _ _ hk
    · rw [he, vmf_model_errors]
    · rw [hm, vmf_models]

lemma load_single_status_self (env : Env) (st : LoaderState) (config : ModelConfig)
    (hr : 1 ≤ config.retry_count) :
    dictLookup (load_single_model env st config).1.model_status config.name =
        some ModelStatus.loaded ∨
    dictLookup (load_single_model env st config).1.model_status config.name =
        some ModelStatus.failed := by
  simp only [load_single_model]
  split
  · exact Or.inr (dictLookup_insert_self _ _ _)
  · rw [List.range_eq_range']
    exact loadLoop_range'_status config config.retry_count 0 _ _ hr (by omega)

/-! ### Lemmas about `runAll` and `load_all_models` -/

lemma runAll_fields (env : Env) :
    ∀ (l : List ModelConfig) (st : LoaderState)
      (rs : List (String × ModelLoadResult)),
    (runAll env st rs l).1.model_configs = st.model_configs ∧
    (runAll env st rs l).1.validate_checksums = st.validate_checksums := by
  intro l
  induction l with
  | nil =>
    intro st rs
    exact ⟨rfl, rfl⟩
  | cons c rest ih =>
    intro st rs
    simp only [runAll]
    have h1 := load_single_fields env st c
    have h2 := ih (load_single_model env st c).1
      (dictInsert rs c.name (load_single_model env st c).2.1)
    exact ⟨h2.1.trans h1.1, h2.2.trans h1.2⟩

lemma runAll_frame_status (env : Env) (k : String) :
    ∀ (l : List ModelConfig) (st : LoaderState)
      (rs : List (String × ModelLoadResult)),
    (∀ c ∈ l, k ≠ c.name) →
    dictLookup (runAll env st rs l).1.model_status k =
      dictLookup st.model_status k := by
  intro l
  induction l with
  | nil =>
    intro st rs hk
    rfl
  | cons c rest ih =>
    intro st rs hk
    simp only [runAll]
    rw [ih _ _ (fun x hx => hk x (List.mem_cons_of_mem _ hx))]
    exact (load_single_frame env st c k (hk c (List.mem_cons_self _ _))).1

lemma runAll_status (env : Env) :
    ∀ (l : List ModelConfig) (st : LoaderState)
      (rs : List (String × ModelLoadResult)),
    (∀ c ∈ l, 1 ≤ c.retry_count) →
    ∀ c ∈ l,
      dictLookup (runAll env st rs l).1.model_status c.name =
          some ModelStatus.loaded ∨
      dictLookup (runAll env st rs l).1.model_status c.name =
          some ModelStatus.failed := by
  intro l
  induction l with
  | nil =>
    intro st rs hr c hc
    cases hc
  | cons c0 rest ih =>
    intro st rs hr c hc
    simp only [runAll]
    rcases List.mem_cons.mp hc with rfl | hmem
    · by_cases hdup : ∃ c2 ∈ rest, c2.name = c.name
      · obtain ⟨c2, hc2mem, hc2name⟩ := hdup
        have h := ih (load_single_model env st c).1
          (dictInsert rs c.name (load_single_model env st c).2.1)
          (fun x hx => hr x (List.mem_cons_of_mem _ hx)) c2 hc2mem
        rw [hc2name] at h
        exact h
      · push_neg at hdup
        have hk : ∀ x ∈ rest, c.name ≠ x.name :=
          fun x hx e => hdup x hx e.symm
        rw [runAll_frame_status env c.name rest _ _ hk]
        exact load_single_status_self env st c (hr c (List.mem_cons_self _ _))
    · exact ih _ _ (fun x hx => hr x (List.mem_cons_of_mem _ hx)) c hmem

lemma vrm_congr (st1 st2 : LoaderState) (rs : List (String × ModelLoadResult))
    (h : st1.model_configs = st2.model_configs) :
    validate_required_models st1 rs = validate_required_models st2 rs := by
  simp only [validate_required_models, missing_required_of, h]

lemma verdict_fst (b1 b2 : Bool) (c3 : Prop) [Decidable c3]
    (m1 m2 m3 m4 : String) :
    (if b1 then ("healthy", m1)
     else if b2 then ("unhealthy", m2)
     else if c3 then ("degraded", m3)
     else ("unhealthy", m4)).1 =
      (if b1 then "healthy"
       else if b2 then "unhealthy"
       else if c3 then "degraded"
       else "unhealthy") := by
  by_cases h1 : b1 <;> by_cases h2 : b2 <;> by_cases h3 : c3 <;>
    simp [h1, h2, h3]

lemma dictLookup_models_status (st : LoaderState) {p : String × ModelConfig}
    (hp : p ∈ st.model_configs) :
    dictLookup (st.model_configs.map (fun q => (q.1, is_model_loaded st q.1)))
        p.1 = some (is_model_loaded st p.1) := by
  obtain ⟨cfg, hcfg⟩ := Option.isSome_iff_exists.mp (dictLookup_isSome_of_mem hp)
  rw [dictLookup_map_key, hcfg]
  rfl

/-! ### Claim theorems -/

/-- C3: when the file-existence (or enabled checksum) validation of a config
fails, `_load_single_model` never invokes the loader capability and consumes
zero retry attempts: it records status FAILED together with the validation
error message for that name and returns an unsuccessful result carrying that
message. -/
theorem c3_validation_failure_is_terminal (env : Env) (st : LoaderState)
    (config : ModelConfig)
    (hval : (validate_model_file env st config).2.1 = false) :
    (load_single_model env st config).2.2.loader_calls = 0 ∧
    (load_single_model env st config).2.2.sleeps = [] ∧
    (load_single_model env st config).2.1 =
      { success := false,
        error_message := some (validate_model_file env st config).2.2 } ∧
    dictLookup (load_single_model env st config).1.model_status config.name =
      some ModelStatus.failed ∧
    dictLookup (load_single_model env st config).1.model_errors config.name =
      some (validate_model_file env st config).2.2 := by
  have hsnd : (validate_model_file env
      { st with model_status :=
          dictInsert st.model_status config.name ModelStatus.loading }
      config).2 = (validate_model_file env st config).2 :=
    vmf_snd_congr env _ st config rfl
  have hv : (validate_model_file env
      { st with model_status :=
          dictInsert st.model_status config.name ModelStatus.loading }
      config).2.1 = false := by
    rw [hsnd]
    exact hval
  have hmsg : (validate_model_file env
      { st with model_status :=
          dictInsert st.model_status config.name ModelStatus.loading }
      config).2.2 = (validate_model_file env st config).2.2 :=
    congrArg Prod.snd hsnd
  simp only [load_single_model, hv, Bool.not_false, if_true]
  refine ⟨trivial, trivial, ?_, dictLookup_insert_self _ _ _, ?_⟩
  · rw [hmsg]
  · rw [dictLookup_insert_self, hmsg]

/-- C3 witness: a required model with a missing artifact file. -/
theorem c3_validation_failure_is_terminal_witness :
    (validate_model_file envMissing {} cfgA).2.1 = false ∧
    (load_single_model envMissing {} cfgA).2.2.loader_calls = 0 ∧
    dictLookup (load_single_model envMissing {} cfgA).1.model_status
      cfgA.name = some ModelStatus.failed :=
  ⟨rfl,
    (c3_validation_failure_is_terminal envMissing {} cfgA rfl).1,
    (c3_validation_failure_is_terminal envMissing {} cfgA rfl).2.2.2.1⟩

/-- C4: with `retry_count = R ≥ 1`, passing file validation, and a loader
capability that fails on every attempt (raising, or returning `None` — both
count identically as a failed attempt), the loader is invoked exactly R
times, the sleep before retry i is exactly `0.5 * 2 ^ i` seconds for
i = 0..R-2, and the model ends FAILED with the final underlying error text
recorded in the error map and the returned result. -/
theorem c4_retry_exhaustion (env : Env) (st : LoaderState) (config : ModelConfig)
    (hr : 1 ≤ config.retry_count)
    (hval : (validate_model_file env st config).2.1 = true)
    (hfail : ∀ i, i < config.retry_count →
      (loaderErr (config.loader_func i)).isSome) :
    (load_single_model env st config).2.2.loader_calls = config.retry_count ∧
    (load_single_model env st config).2.2.sleeps =
      (List.range (config.retry_count - 1)).map
        (fun i => (1 / 2 : ℚ) * 2 ^ i) ∧
    (load_single_model env st config).2.1 =
      { success := false,
        error_message := some
          ((loaderErr (config.loader_func (config.retry_count - 1))).getD "") } ∧
    dictLookup (load_single_model env st config).1.model_status config.name =
      some ModelStatus.failed ∧
    dictLookup (load_single_model env st config).1.model_errors config.name =
      some ((loaderErr (config.loader_func (config.retry_count - 1))).getD "") := by
  have hsnd : (validate_model_file env
      { st with model_status :=
          dictInsert st.model_status config.name ModelStatus.loading }
      config).2 = (validate_model_file env st config).2 :=
    vmf_snd_congr env _ st config rfl
  have hv : (validate_model_file env
      { st with model_status :=
          dictInsert st.model_status config.name ModelStatus.loading }
      config).2.1 = true := by
    rw [hsnd]
    exact hval
  simp only [load_single_model, hv, Bool.not_true, Bool.false_eq_true, if_false]
  rw [List.range_eq_range',
    loadLoop_all_fail config hfail config.retry_count 0 _ _ hr (by omega)]
  refine ⟨by simp, ?_, rfl, dictLookup_insert_self _ _ _,
    dictLookup_insert_self _ _ _⟩
  simp only [List.range_eq_range', List.nil_append]
  rfl

/-- C4 witness: `retry_count = 3`, loader raising on every attempt; three
invocations and sleeps of 0.5s then 1s. -/
theorem c4_retry_exhaustion_witness :
    1 ≤ cfgFail.retry_count ∧
    (validate_model_file envGood {} cfgFail).2.1 = true ∧
    (load_single_model envGood {} cfgFail).2.2.loader_calls = 3 ∧
    (load_single_model envGood {} cfgFail).2.2.sleeps =
      [(1 / 2 : ℚ), 1] ∧
    dictLookup (load_single_model envGood {} cfgFail).1.model_errors "F" =
      some "boom" := by
  have h := c4_retry_exhaustion envGood {} cfgFail (by decide) rfl
    (fun i _ => rfl)
  refine ⟨by decide, rfl, h.1, ?_, h.2.2.2.2⟩
  rw [h.2.1]
  show List.map (fun i => (1 / 2 : ℚ) * 2 ^ i) (List.range 2) = [(1 / 2 : ℚ), 1]
  norm_num [List.range_succ]

/-- C8: a load attempt that succeeds (in particular a successful explicit
reload after an earlier failure) removes any previously recorded error for
that model's name from the error map. -/
theorem c8_success_clears_error (env : Env) (st : LoaderState)
    (config : ModelConfig)
    (hs : (load_single_model env st config).2.1.success = true) :
    dictLookup (load_single_model env st config).1.model_errors config.name =
      none := by
  by_cases hv : (validate_model_file env
      { st with model_status :=
          dictInsert st.model_status config.name ModelStatus.loading }
      config).2.1 = true
  · simp only [load_single_model, hv, Bool.not_true, Bool.false_eq_true,
      if_false] at hs ⊢
    exact loadLoop_success_errors config _ _ _ hs
  · have hvf : (validate_model_file env
        { st with model_status :=
            dictInsert st.model_status config.name ModelStatus.loading }
        config).2.1 = false := by
      cases h : (validate_model_file env
        { st with model_status :=
            dictInsert st.model_status config.name ModelStatus.loading }
        config).2.1
      · rfl
      · exact absurd h hv
    simp only [load_single_model, hvf, Bool.not_false, if_true] at hs
    simp at hs

/-- C8 witness: a model that failed once (error recorded) and then succeeds
on an explicit reload; the stored error is cleared. -/
theorem c8_success_clears_error_witness :
    dictLookup (load_single_model envMissing {} cfgA).1.model_errors
        cfgA.name = some "Model file not found: pA" ∧
    (load_single_model envGood (load_single_model envMissing {} cfgA).1
        cfgA).2.1.success = true ∧
    dictLookup (load_single_model envGood
        (load_single_model envMissing {} cfgA).1 cfgA).1.model_errors
      cfgA.name = none :=
  ⟨rfl, rfl,
    c8_success_clears_error envGood (load_single_model envMissing {} cfgA).1
      cfgA rfl⟩

/-- C5: with the global `validate_checksums` flag set and a non-empty
expected checksum, a streamed digest differing (case-insensitively) from the
expectation makes the load fail with the mismatch/corruption error text,
stores no handle for the name, and never invokes the loader capability;
conversely, when the flag is off or the expectation is absent/empty, the
checksum oracle is never consulted (the outcome is identical for any two
checksum oracles). -/
theorem c5_checksum_policy :
    (∀ (env : Env) (st : LoaderState) (config : ModelConfig)
      (exp actual : String),
      st.validate_checksums = true →
      config.expected_checksum = some exp →
      exp ≠ "" →
      (validate_file_exists env config.path).1 = true →
      env.checksum config.path config.checksum_algorithm =
        ChecksumResult.ok actual →
      ¬(strLower actual = strLower exp) →
      (load_single_model env st config).2.1.success = false ∧
      (load_single_model env st config).2.1.error_message =
        some ("Checksum mismatch! Expected: " ++ exp ++ ", Got: " ++ actual ++
          ". File may be corrupted or tampered with.") ∧
      (load_single_model env st config).2.1.model = none ∧
      (load_single_model env st config).1.models = st.models ∧
      (load_single_model env st config).2.2.loader_calls = 0) ∧
    (∀ (fs : String → FileStat) (ck1 ck2 : String → String → ChecksumResult)
      (st : LoaderState) (config : ModelConfig),
      st.validate_checksums = false ∨ config.expected_checksum = none ∨
        config.expected_checksum = some "" →
      load_single_model { fstat := fs, checksum := ck1 } st config =
        load_single_model { fstat := fs, checksum := ck2 } st config) := by
  constructor
  · intro env st config exp actual hflag hexp hne hfile hok hmm
    have hb : (strLower actual == strLower exp) = false := by
      rw [beq_eq_false_iff_ne]
      exact hmm
    have hbe : (exp == "") = false := by
      rw [beq_eq_false_iff_ne]
      exact hne
    have hvmf : validate_model_file env
        { st with model_status :=
            dictInsert st.model_status config.name ModelStatus.loading }
        config =
        ({ st with model_status :=
            dictInsert st.model_status config.name ModelStatus.loading },
          false,
          "Checksum mismatch! Expected: " ++ exp ++ ", Got: " ++ actual ++
            ". File may be corrupted or tampered with.") := by
      simp [validate_model_file, validate_checksum, optStrTruthy, hfile,
        hexp, hok, hflag, hb, hbe]
    simp [load_single_model, hvmf]
  · intro fs ck1 ck2 st config hcase
    have hand : (st.validate_checksums &&
        optStrTruthy config.expected_checksum) = false := by
      rcases hcase with h | h | h
      · simp [h]
      · simp [h, optStrTruthy]
      · simp [h, optStrTruthy]
    simp only [load_single_model]
    rw [vmf_env_congr fs ck1 ck2
      { st with model_status :=
          dictInsert st.model_status config.name ModelStatus.loading }
      config hand]

/-- C5 witness: a mismatching digest ("ABC" vs expectation "def") fails the
load before any loader invocation; and with checksum validation disabled the
checksum oracle is irrelevant. -/
theorem c5_checksum_policy_witness :
    (load_single_model envGood {} cfgChk).2.1.success = false ∧
    (load_single_model envGood {} cfgChk).2.2.loader_calls = 0 ∧
    load_single_model envGood { validate_checksums := false } cfgChk =
      load_single_model
        { fstat := fun _ => goodStat, checksum := fun _ _ => .err "io error" }
        { validate_checksums := false } cfgChk := by
  refine ⟨?_, ?_, ?_⟩
  · exact (c5_checksum_policy.1 envGood {} cfgChk "def" "ABC" rfl rfl
      (by decide) rfl rfl (by decide)).1
  · exact (c5_checksum_policy.1 envGood {} cfgChk "def" "ABC" rfl rfl
      (by decide) rfl rfl (by decide)).2.2.2.2
  · exact c5_checksum_policy.2 (fun _ => goodStat) (fun _ _ => .ok "ABC")
      (fun _ _ => .err "io error") { validate_checksums := false } cfgChk
      (Or.inl rfl)

/-- C9: `get_model` raises `ValueError` (listing the registered names)
exactly for unregistered names; for a registered name without a usable
stored handle it raises `RuntimeError` carrying the current status and the
recorded error detail; and it returns the stored handle exactly when one is
present, never `None`. -/
theorem c9_get_model_trichotomy (st : LoaderState) (name : String) :
    ((dictLookup st.model_configs name).isSome = false →
      get_model st name = .valueError ("Unknown model: '" ++ name ++
        "'. Available models: " ++
        String.intercalate ", " (st.model_configs.map (fun p => p.1)))) ∧
    ((dictLookup st.model_configs name).isSome = true →
      (dictLookup st.models name).bind id = none →
      get_model st name = .runtimeError ("Model '" ++ name ++
        "' is not available (status: " ++
        ((dictLookup st.model_status name).getD ModelStatus.not_loaded).value ++
        "). Loading failed with: " ++
        ((dictLookup st.model_errors name).getD "Unknown error"))) ∧
    (∀ h : Handle, (dictLookup st.model_configs name).isSome = true →
      (dictLookup st.models name).bind id = some h →
      get_model st name = .ok h) := by
  refine ⟨?_, ?_, ?_⟩
  · intro h1
    simp [get_model, h1]
  · intro h1 h2
    have h2x : ((dictLookup st.models name).bind fun a => a) = none := h2
    simp [get_model, h1, h2x]
  · intro h h1 h2
    have h2x : ((dictLookup st.models name).bind fun a => a) = some h := h2
    simp [get_model, h1, h2x]

/-- C9 witness: unknown name, registered-but-unloaded name, and a
loaded name returning its handle. -/
theorem c9_get_model_trichotomy_witness :
    get_model stA "X" = .valueError
      "Unknown model: 'X'. Available models: A" ∧
    get_model stA "A" = .runtimeError
      "Model 'A' is not available (status: not_loaded). Loading failed with: Unknown error" ∧
    get_model (load_single_model envGood stA cfgA).1 "A" = .ok 7 := by
  refine ⟨?_, ?_, ?_⟩
  · exact (c9_get_model_trichotomy stA "X").1 rfl
  · exact (c9_get_model_trichotomy stA "A").2.1 rfl rfl
  · exact (c9_get_model_trichotomy (load_single_model envGood stA cfgA).1
      "A").2.2 7 rfl rfl

/-- C10: registering an already-registered name does not fail: the config is
silently overwritten and the name's status reset to NOT_LOADED, while the
handle, error and checksum maps are left untouched (as are all the other
names' configs and statuses).  Not raising is modelled by `register_model`
being a total function, as in the source. -/
theorem c10_register_overwrite (st : LoaderState) (config : ModelConfig)
    (halready : (dictLookup st.model_configs config.name).isSome = true) :
    dictLookup (register_model st config).model_configs config.name =
      some config ∧
    dictLookup (register_model st config).model_status config.name =
      some ModelStatus.not_loaded ∧
    (register_model st config).models = st.models ∧
    (register_model st config).model_errors = st.model_errors ∧
    (register_model st config).model_checksums = st.model_checksums ∧
    (∀ k, k ≠ config.name →
      dictLookup (register_model st config).model_configs k =
        dictLookup st.model_configs k ∧
      dictLookup (register_model st config).model_status k =
        dictLookup st.model_status k) := by
  refine ⟨dictLookup_insert_self _ _ _, dictLookup_insert_self _ _ _,
    rfl, rfl, rfl, ?_⟩
  intro k hk
  exact ⟨dictLookup_insert_ne _ _ hk, dictLookup_insert_ne _ _ hk⟩

/-- C10 witness: re-registering "A" (with a different retry count) resets
its status and overwrites the config without touching the other maps. -/
theorem c10_register_overwrite_witness :
    (dictLookup stA.model_configs cfgA.name).isSome = true ∧
    dictLookup (register_model stA { cfgA with retry_count := 2 }).model_configs
      "A" = some { cfgA with retry_count := 2 } ∧
    dictLookup (register_model stA { cfgA with retry_count := 2 }).model_status
      "A" = some ModelStatus.not_loaded ∧
    (register_model stA { cfgA with retry_count := 2 }).model_errors =
      stA.model_errors := by
  have h := c10_register_overwrite stA { cfgA with retry_count := 2 } rfl
  exact ⟨rfl, h.1, h.2.1, h.2.2.2.1⟩

/-- C7 counterexample: with two registered models and a supplied
`max_workers = 10`, the pool size handed to the executor is 10, not
`min(registered_count, max_workers) = 2` — the supplied value is not
clamped. -/
theorem c7_pool_size_counterexample :
    st2.model_configs.length = 2 ∧
    (load_all_models envGood st2 true (some 10)).pool_size = some 10 ∧
    ¬((load_all_models envGood st2 true (some 10)).pool_size =
      some (min st2.model_configs.length 10)) := by
  refine ⟨rfl, rfl, ?_⟩
  intro h
  rw [show (load_all_models envGood st2 true (some 10)).pool_size = some 10
    from rfl] at h
  rw [show st2.model_configs.length = 2 from rfl] at h
  simp only [Option.some.injEq] at h
  omega

/-- C7 amended: in parallel mode with more than one registered model, the
worker-pool size handed to the executor is `min(registered_count, 3)` when
`max_workers` is not supplied, and exactly the supplied value (unclamped)
when it is. -/
theorem c7_pool_size (env : Env) (st : LoaderState)
    (hN : 1 < st.model_configs.length) :
    (load_all_models env st true none).pool_size =
      some (min st.model_configs.length 3) ∧
    (∀ w, (load_all_models env st true (some w)).pool_size = some w) := by
  constructor
  · simp [load_all_models, hN]
  · intro w
    simp [load_all_models, hN]

/-- C7 amended witness: two registered models; defaulted cap is
`min 2 3 = 2`, a supplied 10 stays 10. -/
theorem c7_pool_size_witness :
    1 < st2.model_configs.length ∧
    (load_all_models envGood st2 true none).pool_size = some 2 ∧
    (load_all_models envGood st2 true (some 10)).pool_size = some 10 := by
  have h := c7_pool_size envGood st2 (by decide)
  exact ⟨by decide, h.1, h.2 10⟩

/-- C1: `get_health_status` computes its verdict in strict priority order —
"healthy" exactly when `loaded_count = total_count`; otherwise "unhealthy"
whenever some registered required model is not loaded (never merely
"degraded"); otherwise "degraded" when `loaded_count > 0`; otherwise
"unhealthy" when nothing loaded. -/
theorem c1_health_verdict_priority (st : LoaderState) :
    ((get_health_status st).status = "healthy" ↔
      (get_health_status st).loaded_count = (get_health_status st).total_count) ∧
    (∀ p ∈ st.model_configs, p.2.required = true →
      is_model_loaded st p.1 = false →
      (get_health_status st).status = "unhealthy") ∧
    ((get_health_status st).loaded_count ≠ (get_health_status st).total_count →
      (∀ p ∈ st.model_configs, p.2.required = true →
        is_model_loaded st p.1 = true) →
      0 < (get_health_status st).loaded_count →
      (get_health_status st).status = "degraded") ∧
    ((get_health_status st).loaded_count = 0 →
      (get_health_status st).loaded_count ≠ (get_health_status st).total_count →
      (get_health_status st).status = "unhealthy") := by
  simp only [get_health_status, verdict_fst]
  refine ⟨?_, ?_, ?_, ?_⟩
  · by_cases hbe : ((((st.model_configs.map
        (fun p => (p.1, is_model_loaded st p.1))).filter
          (fun p => p.2)).length ==
        (st.model_configs.map (fun p => (p.1, is_model_loaded st p.1))).length) :
        Bool) = true
    · have heq := beq_iff_eq.mp hbe
      rw [if_pos hbe]
      simp [heq]
    · rw [if_neg hbe]
      constructor
      · intro hcontra
        exfalso
        revert hcontra
        split
        · intro h
          exact absurd h (by decide)
        · split
          · intro h
            exact absurd h (by decide)
          · intro h
            exact absurd h (by decide)
      · intro h
        exact absurd (beq_iff_eq.mpr h) hbe
  · intro p hp hreq hnl
    have hmem_ms : (p.1, is_model_loaded st p.1) ∈
        st.model_configs.map (fun q => (q.1, is_model_loaded st q.1)) :=
      List.mem_map_of_mem _ hp
    have hlt := length_filter_lt_of_mem_false (p := fun q => q.2) hmem_ms
      (by simpa using hnl)
    have hb1 : ((((st.model_configs.map
        (fun q => (q.1, is_model_loaded st q.1))).filter
          (fun q => q.2)).length ==
        (st.model_configs.map (fun q => (q.1, is_model_loaded st q.1))).length) :
        Bool) = false :=
      beq_eq_false_iff_ne.mpr (Nat.ne_of_lt hlt)
    have hrm : p.1 ∈ (st.model_configs.filter (fun q => q.2.required)).map
        (fun q => q.1) :=
      List.mem_map_of_mem _ (List.mem_filter.mpr ⟨hp, hreq⟩)
    have hmr : p.1 ∈ ((st.model_configs.filter (fun q => q.2.required)).map
        (fun q => q.1)).filter
        (fun name => !((dictLookup (st.model_configs.map
          (fun q => (q.1, is_model_loaded st q.1))) name).getD false)) := by
      refine List.mem_filter.mpr ⟨hrm, ?_⟩
      rw [dictLookup_models_status st hp, hnl]
      rfl
    have hb2 : (((st.model_configs.filter (fun q => q.2.required)).map
        (fun q => q.1)).filter
        (fun name => !((dictLookup (st.model_configs.map
          (fun q => (q.1, is_model_loaded st q.1))) name).getD false))).isEmpty
        = false := by
      cases hcase : ((st.model_configs.filter (fun q => q.2.required)).map
        (fun q => q.1)).filter
        (fun name => !((dictLookup (st.model_configs.map
          (fun q => (q.1, is_model_loaded st q.1))) name).getD false)) with
      | nil =>
        rw [hcase] at hmr
        cases hmr
      | cons a t => rfl
    rw [if_neg (by rw [hb1]; exact Bool.false_ne_true),
      if_pos (by rw [hb2]; rfl)]
  · intro hne hall hpos
    have hb1 : ((((st.model_configs.map
        (fun q => (q.1, is_model_loaded st q.1))).filter
          (fun q => q.2)).length ==
        (st.model_configs.map (fun q => (q.1, is_model_loaded st q.1))).length) :
        Bool) = false :=
      beq_eq_false_iff_ne.mpr hne
    have hmr_nil : ((st.model_configs.filter (fun q => q.2.required)).map
        (fun q => q.1)).filter
        (fun name => !((dictLookup (st.model_configs.map
          (fun q => (q.1, is_model_loaded st q.1))) name).getD false)) = [] := by
      rw [List.filter_eq_nil_iff]
      intro name hname
      obtain ⟨q, hq, hqe⟩ := List.mem_map.mp hname
      obtain ⟨hqmem, hqreq⟩ := List.mem_filter.mp hq
      subst hqe
      have hload := hall q hqmem hqreq
      rw [dictLookup_models_status st hqmem, hload]
      simp
    rw [if_neg (by rw [hb1]; exact Bool.false_ne_true),
      if_neg (by rw [hmr_nil]; simp), if_pos hpos]
  · intro hzero hne
    have hb1 : ((((st.model_configs.map
        (fun q => (q.1, is_model_loaded st q.1))).filter
          (fun q => q.2)).length ==
        (st.model_configs.map (fun q => (q.1, is_model_loaded st q.1))).length) :
        Bool) = false :=
      beq_eq_false_iff_ne.mpr hne
    rw [if_neg (by rw [hb1]; exact Bool.false_ne_true)]
    split
    · rfl
    · rw [if_neg (by omega)]

/-- C1 witness: a registry whose single required model is not loaded reports
"unhealthy"; the fully loaded registry reports "healthy". -/
theorem c1_health_verdict_priority_witness :
    ("A", cfgA) ∈ stA.model_configs ∧
    cfgA.required = true ∧
    is_model_loaded stA "A" = false ∧
    (get_health_status stA).status = "unhealthy" ∧
    ((get_health_status (load_single_model envGood stA cfgA).1).status =
        "healthy" ↔
      (get_health_status (load_single_model envGood stA cfgA).1).loaded_count =
        (get_health_status (load_single_model envGood stA cfgA).1).total_count) := by
  have hp : ("A", cfgA) ∈ stA.model_configs := by
    rw [show stA.model_configs = [("A", cfgA)] from rfl]
    exact List.mem_singleton_self _
  exact ⟨hp, rfl, rfl,
    (c1_health_verdict_priority stA).2.1 ("A", cfgA) hp rfl rfl,
    (c1_health_verdict_priority (load_single_model envGood stA cfgA).1).1⟩

/-- C2: `load_all_models` raises exactly when a required model's result is
unsuccessful (the message naming all such models) or, failing that, when no
model at all succeeded (a distinct message); otherwise it returns its result
map without raising. -/
theorem c2_load_all_hard_failure (env : Env) (st : LoaderState)
    (parallel : Bool) (mw : Option Nat) :
    (missing_required_of st (load_all_models env st parallel mw).results ≠ [] →
      (load_all_models env st parallel mw).raised =
        some ("Critical models failed to load: " ++
          String.intercalate ", "
            (missing_required_of st (load_all_models env st parallel mw).results) ++
          ". Service cannot start without these models.")) ∧
    (missing_required_of st (load_all_models env st parallel mw).results = [] →
      (load_all_models env st parallel mw).results.any
        (fun p => p.2.success) = false →
      (load_all_models env st parallel mw).raised =
        some "No models loaded successfully! Service cannot start.") ∧
    (missing_required_of st (load_all_models env st parallel mw).results = [] →
      (load_all_models env st parallel mw).results.any
        (fun p => p.2.success) = true →
      (load_all_models env st parallel mw).raised = none) := by
  have hraised : (load_all_models env st parallel mw).raised =
      validate_required_models st (load_all_models env st parallel mw).results :=
    vrm_congr _ st _
      ((runAll_fields env (st.model_configs.map (fun p => p.2)) st []).1)
  refine ⟨?_, ?_, ?_⟩
  · intro hne
    rw [hraised]
    have h1 : (missing_required_of st
        (load_all_models env st parallel mw).results).isEmpty = false := by
      cases hcase : missing_required_of st
          (load_all_models env st parallel mw).results with
      | nil => exact absurd hcase hne
      | cons a t => rfl
    simp [validate_required_models, h1]
  · intro hm hany
    rw [hraised]
    simp [validate_required_models, hm, hany]
  · intro hm hany
    rw [hraised]
    simp [validate_required_models, hm, hany]

/-- C2 witness: a missing required artifact raises the critical-models
message naming it; an all-optional registry with nothing loadable raises the
distinct no-models message; a loadable registry returns without raising. -/
theorem c2_load_all_hard_failure_witness :
    missing_required_of stA
      (load_all_models envMissing stA false none).results = ["A"] ∧
    (load_all_models envMissing stA false none).raised =
      some "Critical models failed to load: A. Service cannot start without these models." ∧
    missing_required_of stOpt
      (load_all_models envMissing stOpt false none).results = [] ∧
    (load_all_models envMissing stOpt false none).raised =
      some "No models loaded successfully! Service cannot start." ∧
    (load_all_models envGood stA false none).raised = none := by
  refine ⟨rfl, ?_, rfl, ?_, ?_⟩
  · have hne : missing_required_of stA
        (load_all_models envMissing stA false none).results ≠ [] := by
      rw [show missing_required_of stA
        (load_all_models envMissing stA false none).results = ["A"] from rfl]
      simp
    have h := (c2_load_all_hard_failure envMissing stA false none).1 hne
    rw [h]
    rfl
  · exact (c2_load_all_hard_failure envMissing stOpt false none).2.1 rfl rfl
  · exact (c2_load_all_hard_failure envGood stA false none).2.2 rfl rfl

/-- C6 counterexample: the claim fails for `retry_count = 0`.  With required
`cfgA` (which loads) and optional `cfgB0` registered with `retry_count = 0`,
`load_all_models` returns without raising, yet the registered name "B" is
left with status LOADING — neither LOADED nor FAILED. -/
theorem c6_counterexample_retry_zero :
    (dictLookup st2.model_configs "B").isSome = true ∧
    (load_all_models envGood st2 false none).raised = none ∧
    dictLookup (load_all_models envGood st2 false none).state.model_status
      "B" = some ModelStatus.loading := by
  exact ⟨rfl, rfl, rfl⟩

/-- C6 amended: provided every registered config has `retry_count ≥ 1` (and
is registered under its own name, as `register_model` guarantees), after
`load_all_models` returns without raising every registered name's status is
exactly LOADED or FAILED. -/
theorem c6_terminal_status_with_positive_retries (env : Env)
    (st : LoaderState) (parallel : Bool) (mw : Option Nat)
    (hwf : ∀ p ∈ st.model_configs, p.2.name = p.1)
    (hr : ∀ p ∈ st.model_configs, 1 ≤ p.2.retry_count)
    (hok : (load_all_models env st parallel mw).raised = none) :
    ∀ p ∈ st.model_configs,
      dictLookup (load_all_models env st parallel mw).state.model_status
          p.1 = some ModelStatus.loaded ∨
      dictLookup (load_all_models env st parallel mw).state.model_status
          p.1 = some ModelStatus.failed := by
  intro p hp
  have hc : p.2 ∈ st.model_configs.map (fun q => q.2) :=
    List.mem_map_of_mem _ hp
  have h := runAll_status env (st.model_configs.map (fun q => q.2)) st []
    (by
      intro c hcm
      obtain ⟨q, hq, rfl⟩ := List.mem_map.mp hcm
      exact hr q hq)
    p.2 hc
  rw [hwf p hp] at h
  exact h

/-- C6 amended witness: the single-model registry with `retry_count = 1`
ends with "A" LOADED or FAILED after a non-raising `load_all_models`. -/
theorem c6_terminal_status_witness :
    (load_all_models envGood stA false none).raised = none ∧
    (dictLookup (load_all_models envGood stA false none).state.model_status
        "A" = some ModelStatus.loaded ∨
      dictLookup (load_all_models envGood stA false none).state.model_status
        "A" = some ModelStatus.failed) := by
  have hwf : ∀ p ∈ stA.model_configs, p.2.name = p.1 := by
    intro p hp
    rw [show stA.model_configs = [("A", cfgA)] from rfl] at hp
    obtain rfl := List.mem_singleton.mp hp
    rfl
  have hr : ∀ p ∈ stA.model_configs, 1 ≤ p.2.retry_count := by
    intro p hp
    rw [show stA.model_configs = [("A", cfgA)] from rfl] at hp
    obtain rfl := List.mem_singleton.mp hp
    decide
  have hp : ("A", cfgA) ∈ stA.model_configs := by
    rw [show stA.model_configs = [("A", cfgA)] from rfl]
    exact List.mem_singleton_self _
  exact ⟨rfl, c6_terminal_status_with_positive_retries envGood stA false none
    hwf hr rfl ("A", cfgA) hp⟩

end ModelLoaderSpec
